import Mathlib

/-!
Shallow embedding of the sync-adapter core of the universal-sync library
(status model, progress estimator, merge engine, event dispatcher, and the
WebDAV / RemoteStorage adapter state machines), together with theorems
checking the specification's claims against it.
-/

namespace UniversalSync

/-- The seven values of `SyncStatus.status` (src/interfaces/SyncAdapter.ts). -/
inductive StatusKind where
  | idle
  | connecting
  | connected
  | syncing
  | paused
  | completed
  | error
deriving DecidableEq, Repr

/-- Result of a JS numeric expression as stored in `progress`: a finite
integer value, or one of the IEEE special values NaN / +Infinity / -Infinity
that JS division can produce. -/
inductive JsNum where
  | nan
  | posInf
  | negInf
  | val (z : ℤ)
deriving DecidableEq, Repr

/-- True exactly when the JS number is a finite integer value. -/
def JsNum.isInt : JsNum → Bool
  | .val _ => true
  | _ => false

/-- The `error` member of `SyncStatus`; the opaque `details` member carries
the underlying thrown value and is not modeled. -/
structure ErrInfo where
  message : String
deriving DecidableEq, Repr

/-- The `SyncStatus` record (src/interfaces/SyncAdapter.ts): `progress` and
`error` are optional members. -/
structure SyncStatus where
  status : StatusKind
  progress : Option JsNum := none
  error : Option ErrInfo := none
deriving DecidableEq, Repr

/-- An argument to `updateStatus`: an object literal that names some subset
of the three `SyncStatus` keys.  `none` models a key that is absent from the
literal (and is therefore kept from the previous status by object spread). -/
structure StatusPatch where
  status : Option StatusKind := none
  progress : Option JsNum := none
  error : Option ErrInfo := none
deriving DecidableEq, Repr

/-- The object-spread merge `{ ...this.syncStatus, ...status }` performed by
`updateStatus` in BaseSyncAdapter and WebDAVAdapter: a key named in the patch
overwrites the field, a key absent from the patch leaves the field as it was. -/
def spreadStatus (s : SyncStatus) (p : StatusPatch) : SyncStatus :=
  { status := p.status.getD s.status
    progress := match p.progress with
      | some v => some v
      | none => s.progress
    error := match p.error with
      | some e => some e
      | none => s.error }

/-- A replication `change` report: each counter is `some r` exactly when the
corresponding member passes the `typeof ... === 'number'` test with a finite
value (finite JS numbers are modeled as rationals). -/
structure ChangeInfo where
  docs_read : Option ℚ := none
  docs_written : Option ℚ := none
deriving DecidableEq, Repr

/-- JS `Math.round`: round half toward positive infinity. -/
def jsRound (q : ℚ) : ℤ := Int.floor (q + 1 / 2)

/-- `calculateProgress(info)` of WebDAVAdapter / GoogleDriveAdapter /
RemoteStorageAdapter.  On the numeric branch the code computes
`Math.min(Math.round((docs_written / (docs_read + docs_written)) * 100), 99)`.
When the divisor is zero, JS division yields Infinity (positive numerator),
-Infinity (negative numerator) or NaN (zero numerator); `Math.round`
preserves these and `Math.min(Infinity, 99) = 99`, `Math.min(-Infinity, 99)
= -Infinity`, `Math.min(NaN, 99) = NaN`.  A falsy `info` or a counter
failing the `typeof` test falls through to the fixed fallback 50. -/
def calculateProgress (info : Option ChangeInfo) : JsNum :=
  match info with
  | none => .val 50
  | some i =>
    match i.docs_written, i.docs_read with
    | some w, some r =>
      if r + w = 0 then
        if 0 < w then .val 99
        else if w < 0 then .negInf
        else .nan
      else
        .val (min (jsRound (w / (r + w) * 100)) 99)
    | _, _ => .val 50

/-- A document of the remote listing in `RemoteStorageAdapter.triggerSync`:
`_id`, an optional `_rev` revision marker, and the rest of the document body
(what `localDB.put(remoteDoc)` writes besides the two bookkeeping fields). -/
structure RemoteDoc where
  id : String
  rev : Option String := none
  content : String := ""
deriving DecidableEq, Repr

/-- The `doc` of a row of `localDB.allDocs({ include_docs: true })`. -/
structure LocalDoc where
  rev : Option String := none
  content : String := ""
deriving DecidableEq, Repr

/-- One row of the local listing: an `id` and the optional included `doc`. -/
structure LocalRow where
  id : String
  doc : Option LocalDoc := none
deriving DecidableEq, Repr

/-- JS falsiness of a `_rev` member (`!doc._rev`): an absent marker or the
empty string is falsy. -/
def revFalsy : Option String → Bool
  | none => true
  | some s => s == ""

/-- JS `a > b` on revision markers: lexicographic string comparison when both
sides are strings; any comparison against an absent marker is false. -/
def revGt : Option String → Option String → Bool
  | some a, some b => decide (b < a)
  | _, _ => false

/-- The remote-to-local guard of `RemoteStorageAdapter.triggerSync` step 3:
`!localDoc || !localDoc.doc || !localDoc.doc._rev || remoteDoc._rev >
localDoc.doc._rev` with `localDoc = localDocs.rows.find(row => row.id ===
remoteDoc._id)`. -/
def remoteWinsPut (rows : List LocalRow) (rd : RemoteDoc) : Bool :=
  match rows.find? (fun row => row.id == rd.id) with
  | none => true
  | some row =>
    match row.doc with
    | none => true
    | some d => revFalsy d.rev || revGt rd.rev d.rev

/-- The writes a reconciliation pass makes into the local store: the remote
documents put by `this.localDB.put(remoteDoc)` in loop 3 of `triggerSync`. -/
def syncRemoteToLocal (remoteDocs : List RemoteDoc) (rows : List LocalRow) :
    List RemoteDoc :=
  remoteDocs.filter (remoteWinsPut rows)

/-- The local-to-remote guard of `RemoteStorageAdapter.triggerSync` step 4:
rows with `!localRow.doc || !localRow.doc._rev` are skipped, the rest are
pushed when `!remoteDoc || localRow.doc._rev > remoteDoc._rev` with
`remoteDoc = remoteDocs.find(doc => doc._id === localRow.id)`. -/
def localWinsPut (remoteDocs : List RemoteDoc) (row : LocalRow) : Bool :=
  match row.doc with
  | none => false
  | some d =>
    if revFalsy d.rev then false
    else
      match remoteDocs.find? (fun rd => rd.id == row.id) with
      | none => true
      | some rd => revGt d.rev rd.rev

/-- The writes a reconciliation pass sends to the remote store: the local
rows pushed by `this.putRemoteDocument(localRow.doc)` in loop 4 of
`triggerSync`. -/
def syncLocalToRemote (remoteDocs : List RemoteDoc) (rows : List LocalRow) :
    List LocalRow :=
  rows.filter (localWinsPut remoteDocs)

/-- The event payload built by `dispatchEvent` / `triggerEvent`
(src/interfaces/SyncAdapter.ts `SyncEventData`); the open `...extra` members
are not modeled. -/
structure SyncEventData where
  type : String
  status : SyncStatus
  error : Option ErrInfo := none
deriving DecidableEq, Repr

/-- A caller-supplied event listener: it reads the payload, transforms some
caller-visible state of type `σ`, and either returns normally (`none`) or
throws (`some msg`, the message later written by `console.error`). -/
def Listener (σ : Type) : Type := SyncEventData → σ → σ × Option String

/-- The listener loop of `BaseSyncAdapter.dispatchEvent` (and of
`WebDAVAdapter.triggerEvent`): every listener is invoked in registration
order with the same payload, each inside `try { ... } catch (error) {
console.error(...) }`.  The result is the caller-visible state after all
listeners ran, plus the log of caught errors; the function itself returns
normally whatever the listeners do. -/
def dispatchEvent {σ : Type} (ed : SyncEventData) (ls : List (Listener σ))
    (s : σ) : σ × List String :=
  match ls with
  | [] => (s, [])
  | l :: rest =>
    let r := l ed s
    let t := dispatchEvent ed rest r.1
    (t.1, r.2.toList ++ t.2)

/-- The state reached by running every listener of the list in order,
keeping each listener's state effect whether or not it throws. -/
def runAll {σ : Type} (ed : SyncEventData) (ls : List (Listener σ)) (s : σ) :
    σ :=
  ls.foldl (fun st l => (l ed st).1) s

/-- JS truthiness of an optional numeric config member such as
`syncInterval`: present and nonzero. -/
def truthyNat : Option Nat → Bool
  | none => false
  | some n => n != 0

/-- The `WebDAVConfig` members that drive control flow (url, autoSync,
syncInterval); username / password / dbPath only feed the transport layer. -/
structure WebDAVConfigM where
  url : String
  autoSync : Bool := false
  syncInterval : Option Nat := none
deriving DecidableEq, Repr

/-- Mutable instance fields of `WebDAVAdapter`.  The handle-valued fields
(`client`, `localDB`, `remoteDB`, `syncHandler`, `autoSyncTimer`) are
modeled by whether they are non-null. -/
structure WebDAVState where
  syncStatus : SyncStatus := { status := .idle }
  config : Option WebDAVConfigM := none
  localDB : Bool := false
  remoteDB : Bool := false
  syncHandler : Bool := false
  autoSyncTimer : Bool := false
deriving DecidableEq, Repr

/-- A freshly constructed `WebDAVAdapter`. -/
def wdInit : WebDAVState := {}

/-- `WebDAVAdapter.updateStatus`: replace `syncStatus` by the spread merge
(no event dispatch in this variant). -/
def wdUpdateStatus (s : WebDAVState) (p : StatusPatch) : WebDAVState :=
  { s with syncStatus := spreadStatus s.syncStatus p }

/-- Character sequence of a string after JS `toLowerCase` (over the ASCII
range the URL schemes use). -/
def lowerData (u : String) : List Char := u.data.map Char.toLower

/-- Contiguous-subsequence search, the semantics of JS
`String.prototype.includes`. -/
def containsSeq (pat : List Char) : List Char → Bool
  | [] => pat.isEmpty
  | c :: tl => pat.isPrefixOf (c :: tl) || containsSeq pat tl

/-- Case-insensitive test of the regex `/^https?:\/\//i`. -/
def hasHttpPrefix (u : String) : Bool :=
  "http://".data.isPrefixOf (lowerData u)
    || "https://".data.isPrefixOf (lowerData u)

/-- JS `url.includes('error')` (substring containment, case sensitive). -/
def urlMentionsFailure (u : String) : Bool :=
  containsSeq "error".data u.data

/-- `WebDAVAdapter.checkConnection`: empty URL, a URL without an http(s)
scheme, and a URL containing the substring `error` each throw; the simulated
delay is not modeled. -/
def wdCheckConnection (c : WebDAVConfigM) : Except ErrInfo Unit :=
  if c.url == "" then .error ⟨"WebDAV URL不能为空"⟩
  else if !hasHttpPrefix c.url then
    .error ⟨"WebDAV URL必须以http://或https://开头"⟩
  else if urlMentionsFailure c.url then
    .error ⟨"连接失败：无法连接到WebDAV服务器"⟩
  else .ok ()

/-- `WebDAVAdapter.connect`: set status to `connecting`, store the config
(before any step that can fail), run `checkConnection`, then either set
`connected` and fire `connect-success` returning `true`, or set `error`
and fire `connect-error` returning `false`. -/
def wdConnect (s : WebDAVState) (c : WebDAVConfigM) :
    (WebDAVState × List String) × Bool :=
  let s1 := wdUpdateStatus s { status := some .connecting }
  let s2 := { s1 with config := some c }
  match wdCheckConnection c with
  | .ok _ =>
    ((wdUpdateStatus s2 { status := some .connected }, ["connect-success"]),
      true)
  | .error e =>
    ((wdUpdateStatus s2 { status := some .error, error := some e },
      ["connect-error"]), false)

/-- Message of the `startSync` precondition throw of `WebDAVAdapter`. -/
def wdPreErr : ErrInfo := ⟨"未配置WebDAV连接"⟩

/-- `WebDAVAdapter.startSync`: with no stored config the body throws, the
surrounding catch records an `error` status, fires `sync-error` and
rethrows; with a stored config it saves the local store, moves to `syncing`
with progress 0, opens the remote handle, installs the live replication
handler, and arms the auto-sync timer when `autoSync && syncInterval` is
truthy. -/
def wdStartSync (s : WebDAVState) :
    (WebDAVState × List String) × Except ErrInfo Unit :=
  match s.config with
  | none =>
    ((wdUpdateStatus s { status := some .error, error := some wdPreErr },
      ["sync-error"]), .error wdPreErr)
  | some c =>
    let s1 := { s with localDB := true }
    let s2 := wdUpdateStatus s1
      { status := some .syncing, progress := some (.val 0) }
    let s3 := { s2 with remoteDB := true, syncHandler := true }
    let s4 := if c.autoSync && truthyNat c.syncInterval then
        { s3 with autoSyncTimer := true }
      else s3
    ((s4, []), .ok ())

/-- The replication handler's `change` callback: status `syncing`, progress
from `calculateProgress`, event `sync-progress`. -/
def wdOnChange (s : WebDAVState) (info : Option ChangeInfo) :
    WebDAVState × List String :=
  (wdUpdateStatus s
    { status := some .syncing, progress := some (calculateProgress info) },
   ["sync-progress"])

/-- The replication handler's `paused` callback. -/
def wdOnPaused (s : WebDAVState) : WebDAVState × List String :=
  (wdUpdateStatus s { status := some .paused }, ["sync-paused"])

/-- The replication handler's `active` callback. -/
def wdOnActive (s : WebDAVState) : WebDAVState × List String :=
  (wdUpdateStatus s { status := some .syncing }, ["sync-active"])

/-- The replication handler's `denied` callback (fixed message, the
underlying error goes into the unmodeled `details`). -/
def wdOnDenied (s : WebDAVState) : WebDAVState × List String :=
  (wdUpdateStatus s { status := some .error, error := some ⟨"同步被拒绝"⟩ },
   ["sync-denied"])

/-- The replication handler's `complete` callback: the explicit completion
signal, status `completed` with progress 100. -/
def wdOnComplete (s : WebDAVState) : WebDAVState × List String :=
  (wdUpdateStatus s
    { status := some .completed, progress := some (.val 100) },
   ["sync-complete"])

/-- The replication handler's `error` callback (fixed message). -/
def wdOnError (s : WebDAVState) : WebDAVState × List String :=
  (wdUpdateStatus s { status := some .error, error := some ⟨"同步错误"⟩ },
   ["sync-error"])

/-- `WebDAVAdapter.stopSync`: clear the timer, cancel the replication
handle, close the remote handle, set `{ status: 'idle', progress: 0 }`, and
fire `sync-stopped` — unconditionally, in every state. -/
def wdStopSync (s : WebDAVState) : WebDAVState × List String :=
  let s1 := { s with autoSyncTimer := false, syncHandler := false,
                     remoteDB := false }
  (wdUpdateStatus s1 { status := some .idle, progress := some (.val 0) },
   ["sync-stopped"])

/-- Outcome of one network-bound one-shot sync pass. -/
inductive SyncOutcome where
  | ok
  | fail (e : ErrInfo)
deriving DecidableEq, Repr

/-- `WebDAVAdapter.triggerSync` (the pass run by the auto-sync timer):
early return when either handle is missing; otherwise `syncing`/0, then the
awaited one-shot sync either completes (`completed`/100, `sync-complete`)
or throws into the catch (`error`, `sync-error`). -/
def wdTriggerSync (s : WebDAVState) (oc : SyncOutcome) :
    WebDAVState × List String :=
  if !s.localDB || !s.remoteDB then (s, [])
  else
    let s1 := wdUpdateStatus s
      { status := some .syncing, progress := some (.val 0) }
    match oc with
    | .ok =>
      (wdUpdateStatus s1
        { status := some .completed, progress := some (.val 100) },
       ["sync-complete"])
    | .fail e =>
      (wdUpdateStatus s1 { status := some .error, error := some e },
       ["sync-error"])

/-- One tick of the auto-sync interval callback: it calls `triggerSync`
only when the current status is not `syncing`. -/
def wdAutoTick (s : WebDAVState) (oc : SyncOutcome) :
    WebDAVState × List String :=
  if s.syncStatus.status = .syncing then (s, [])
  else wdTriggerSync s oc

/-- The operations and environment events that can act on a
`WebDAVAdapter` instance.  Replication-handler callbacks are modeled as
always available, a superset of the runs the host can schedule. -/
inductive WDOp where
  | connect (c : WebDAVConfigM)
  | startSync
  | stopSync
  | change (info : Option ChangeInfo)
  | paused
  | active
  | denied
  | complete
  | syncErrorEvent
  | autoTick (oc : SyncOutcome)
deriving DecidableEq, Repr

/-- One step of the WebDAV adapter machine: resulting state and the events
dispatched during the step. -/
def wdStep (s : WebDAVState) (op : WDOp) : WebDAVState × List String :=
  match op with
  | .connect c => (wdConnect s c).1
  | .startSync => (wdStartSync s).1
  | .stopSync => wdStopSync s
  | .change info => wdOnChange s info
  | .paused => wdOnPaused s
  | .active => wdOnActive s
  | .denied => wdOnDenied s
  | .complete => wdOnComplete s
  | .syncErrorEvent => wdOnError s
  | .autoTick oc => wdAutoTick s oc

/-- The state a fresh adapter reaches after a sequence of operations. -/
def wdRun (ops : List WDOp) : WebDAVState :=
  ops.foldl (fun s op => (wdStep s op).1) wdInit

/-- The half of the section-3 invariant that the code does maintain:
whenever the status is `error`, the `error` member is populated. -/
def statusErrorInv (s : WebDAVState) : Prop :=
  s.syncStatus.status = .error → s.syncStatus.error ≠ none

/-- `BaseSyncAdapter.updateStatus`: the same spread merge, followed by a
conditional dispatch — `sync-progress` when the patch sets status `syncing`,
`sync-error` when it sets status `error`. -/
def baseUpdateStatus (st : SyncStatus) (p : StatusPatch) :
    SyncStatus × List String :=
  (spreadStatus st p,
   if p.status = some .syncing then ["sync-progress"]
   else if p.status = some .error then ["sync-error"]
   else [])

/-- Result of one network round-trip. -/
inductive NetResult where
  | ok
  | fail (e : ErrInfo)
deriving DecidableEq, Repr

/-- The `RemoteStorageConfig` members that drive control flow. -/
structure RSConfigM where
  token : String := ""
  autoSyncInterval : Option Nat := none
deriving DecidableEq, Repr

/-- Mutable instance fields of `RemoteStorageAdapter`
(src/adapters/RemoteStorageAdapter.ts); handle-valued fields are modeled by
whether they are non-null. -/
structure RSState where
  status : SyncStatus := { status := .idle }
  config : Option RSConfigM := none
  remoteInfo : Bool := false
  tokenSet : Bool := false
  localDB : Bool := false
  autoSyncTimer : Bool := false
deriving DecidableEq, Repr

/-- A freshly constructed `RemoteStorageAdapter`. -/
def rsInit : RSState := {}

/-- Apply `BaseSyncAdapter.updateStatus` to the adapter state. -/
def rsUpdate (s : RSState) (p : StatusPatch) : RSState × List String :=
  let r := baseUpdateStatus s.status p
  ({ s with status := r.1 }, r.2)

/-- The shared failure tail of `RemoteStorageAdapter.connect`: record an
`error` status (the base class also dispatches `sync-error` there), fire
`connection-error`, return `false`. -/
def rsConnectFail (s : RSState) (ev : List String) (e : ErrInfo) :
    (RSState × List String) × Bool :=
  let r := rsUpdate s { status := some .error, error := some e }
  ((r.1, ev ++ r.2 ++ ["connection-error"]), false)

/-- `RemoteStorageAdapter.connect`: status `connecting`, store the config,
run endpoint discovery, reject an empty token, store `remoteInfo` and
`token`, then test the connection with a PROPFIND; only after all of that
does it report `connected` and fire `connected`.  Note the order: the
config is stored before discovery can fail, and `remoteInfo` / `token` are
stored before the connection test can fail.  Network results are inputs;
their interpolated status text is abstracted into the carried message. -/
def rsConnect (s : RSState) (c : RSConfigM) (discover : NetResult)
    (test : NetResult) : (RSState × List String) × Bool :=
  let r0 := rsUpdate s { status := some .connecting }
  let s1 := { r0.1 with config := some c }
  match discover with
  | .fail e => rsConnectFail s1 r0.2 e
  | .ok =>
    if c.token == "" then rsConnectFail s1 r0.2 ⟨"无效的访问令牌"⟩
    else
      let s2 := { s1 with remoteInfo := true, tokenSet := true }
      match test with
      | .fail e => rsConnectFail s2 r0.2 e
      | .ok =>
        let r := rsUpdate s2 { status := some .connected }
        ((r.1, r0.2 ++ r.2 ++ ["connected"]), true)

/-- Message of the `startSync` precondition throw of
`RemoteStorageAdapter`. -/
def rsPreErr : ErrInfo := ⟨"请先连接到RemoteStorage服务器"⟩

/-- `RemoteStorageAdapter.triggerSync`: a missing handle throws past the
try block; otherwise the pass reports checkpoints 0 / 30 / 60, applies the
merge loops (their writes are `syncRemoteToLocal` / `syncLocalToRemote`),
and ends at `completed`/100 with `sync-complete` — or its catch records an
`error` status and dispatches `sync-error` (on top of the `sync-error` the
base `updateStatus` itself dispatches). -/
def rsTriggerSync (s : RSState) (pass : SyncOutcome) :
    (RSState × List String) × Except ErrInfo Unit :=
  if !s.localDB || !s.remoteInfo || !s.tokenSet then
    ((s, []), .error ⟨"未连接到RemoteStorage服务器"⟩)
  else
    let r0 := rsUpdate s { status := some .syncing, progress := some (.val 0) }
    match pass with
    | .fail e =>
      let r1 := rsUpdate r0.1 { status := some .error, error := some e }
      ((r1.1, r0.2 ++ r1.2 ++ ["sync-error"]), .ok ())
    | .ok =>
      let r1 := rsUpdate r0.1
        { status := some .syncing, progress := some (.val 30) }
      let r2 := rsUpdate r1.1
        { status := some .syncing, progress := some (.val 60) }
      let r3 := rsUpdate r2.1
        { status := some .completed, progress := some (.val 100) }
      ((r3.1, r0.2 ++ r1.2 ++ r2.2 ++ r3.2 ++ ["sync-complete"]), .ok ())

/-- `RemoteStorageAdapter.startSync`: throws the precondition error when
config, remoteInfo or token is missing (before any state change); otherwise
stores the local handle, awaits one `triggerSync` pass (whose internal
catch swallows pass failures), then arms the timer when `autoSyncInterval`
is truthy — even if the pass just failed. -/
def rsStartSync (s : RSState) (pass : SyncOutcome) :
    (RSState × List String) × Except ErrInfo Unit :=
  if s.config.isNone || !s.remoteInfo || !s.tokenSet then
    ((s, []), .error rsPreErr)
  else
    let s1 := { s with localDB := true }
    let r := rsTriggerSync s1 pass
    let armed := match s1.config with
      | some c => truthyNat c.autoSyncInterval
      | none => false
    (((if armed then { r.1.1 with autoSyncTimer := true } else r.1.1), r.1.2),
     .ok ())

/-- `RemoteStorageAdapter.stopSync`: clear the timer, set
`{ status: 'idle' }` (the patch names no progress key), and fire
`sync-stopped` — unconditionally, in every state.
`GoogleDriveAdapter.stopSync` is line-for-line the same. -/
def rsStopSync (s : RSState) : RSState × List String :=
  let s1 := { s with autoSyncTimer := false }
  let r := rsUpdate s1 { status := some .idle }
  (r.1, r.2 ++ ["sync-stopped"])

/-- A RemoteStorage adapter after a successful `connect`. -/
def rsConnected : RSState :=
  ((rsConnect rsInit { token := "tok" } .ok .ok).1).1

/-- The connected adapter after a successful `startSync` pass: status
`completed`, progress 100. -/
def rsSynced : RSState := ((rsStartSync rsConnected .ok).1).1

/-- Fixture payload for the listener-isolation witness. -/
def edW : SyncEventData := { type := "sync-complete", status := { status := .completed } }

/-- Fixture listener that runs normally, bumping a counter. -/
def goodW : Listener Nat := fun _ n => (n + 1, none)

/-- Fixture listener that throws. -/
def badW : Listener Nat := fun _ n => (n, some "boom")

theorem calculateProgress_ne_hundred (info : Option ChangeInfo) :
    calculateProgress info ≠ .val 100 := by
  rcases info with _ | ⟨dr, dw⟩
  · simp [calculateProgress]
  · rcases dw with _ | w <;> rcases dr with _ | r <;>
      simp only [calculateProgress] <;> try simp
    split
    · split
      · simp
      · split <;> simp
    · intro hc
      rw [JsNum.val.injEq] at hc
      have := min_le_right (jsRound (w / (r + w) * 100)) 99
      omega

theorem dispatchEvent_fst {σ : Type} (ed : SyncEventData)
    (ls : List (Listener σ)) (s : σ) :
    (dispatchEvent ed ls s).1 = runAll ed ls s := by
  induction ls generalizing s with
  | nil => rfl
  | cons l rest ih => simp [dispatchEvent, runAll, List.foldl_cons, ih]

theorem dispatchEvent_append {σ : Type} (ed : SyncEventData)
    (as bs : List (Listener σ)) (s : σ) :
    dispatchEvent ed (as ++ bs) s =
      ((dispatchEvent ed bs (dispatchEvent ed as s).1).1,
       (dispatchEvent ed as s).2
         ++ (dispatchEvent ed bs (dispatchEvent ed as s).1).2) := by
  induction as generalizing s with
  | nil => simp [dispatchEvent]
  | cons l rest ih => simp [dispatchEvent, ih, List.append_assoc]

theorem wdStep_inv (s : WebDAVState) (op : WDOp) (h : statusErrorInv s) :
    statusErrorInv (wdStep s op).1 := by
  unfold statusErrorInv at *
  cases op with
  | connect c =>
    simp only [wdStep, wdConnect, wdUpdateStatus, spreadStatus]
    split <;> simp
  | startSync =>
    simp only [wdStep, wdStartSync]
    split
    · simp [wdUpdateStatus, spreadStatus]
    · split <;> simp [wdUpdateStatus, spreadStatus]
  | stopSync => simp [wdStep, wdStopSync, wdUpdateStatus, spreadStatus]
  | change info => simp [wdStep, wdOnChange, wdUpdateStatus, spreadStatus]
  | paused =>
    simp only [wdStep, wdOnPaused, wdUpdateStatus, spreadStatus]
    simp
  | active => simp [wdStep, wdOnActive, wdUpdateStatus, spreadStatus]
  | denied => simp [wdStep, wdOnDenied, wdUpdateStatus, spreadStatus]
  | complete => simp [wdStep, wdOnComplete, wdUpdateStatus, spreadStatus]
  | syncErrorEvent => simp [wdStep, wdOnError, wdUpdateStatus, spreadStatus]
  | autoTick oc =>
    simp only [wdStep, wdAutoTick]
    split
    · exact h
    · simp only [wdTriggerSync]
      split
      · exact h
      · cases oc <;> simp [wdUpdateStatus, spreadStatus]

theorem wdRun_inv_aux (ops : List WDOp) :
    ∀ s : WebDAVState, statusErrorInv s →
      statusErrorInv (ops.foldl (fun s op => (wdStep s op).1) s) := by
  induction ops with
  | nil => exact fun s h => h
  | cons op rest ih =>
    intro s h
    simpa using ih _ (wdStep_inv s op h)

theorem wdStep_progress_hundred (s : WebDAVState) (op : WDOp)
    (h : (wdStep s op).1.syncStatus.progress = some (.val 100)) :
    s.syncStatus.progress = some (.val 100)
      ∨ op = .complete ∨ op = .autoTick .ok := by
  cases op with
  | connect c =>
    left
    simp only [wdStep, wdConnect, wdUpdateStatus, spreadStatus] at h
    split at h <;> simpa using h
  | startSync =>
    simp only [wdStep, wdStartSync] at h
    split at h
    · left
      simpa [wdUpdateStatus, spreadStatus] using h
    · split at h <;> simp [wdUpdateStatus, spreadStatus] at h
  | stopSync => simp [wdStep, wdStopSync, wdUpdateStatus, spreadStatus] at h
  | change info =>
    simp only [wdStep, wdOnChange, wdUpdateStatus, spreadStatus] at h
    simp only [Option.some.injEq] at h
    exact absurd h (calculateProgress_ne_hundred info)
  | paused =>
    left
    simpa [wdStep, wdOnPaused, wdUpdateStatus, spreadStatus] using h
  | active =>
    left
    simpa [wdStep, wdOnActive, wdUpdateStatus, spreadStatus] using h
  | denied =>
    left
    simpa [wdStep, wdOnDenied, wdUpdateStatus, spreadStatus] using h
  | complete => simp
  | syncErrorEvent =>
    left
    simpa [wdStep, wdOnError, wdUpdateStatus, spreadStatus] using h
  | autoTick oc =>
    simp only [wdStep, wdAutoTick] at h
    split at h
    · exact Or.inl h
    · simp only [wdTriggerSync] at h
      split at h
      · exact Or.inl h
      · cases oc with
        | ok => simp
        | fail e => simp [wdUpdateStatus, spreadStatus] at h

/-- C1: for a change report whose `docs_read = r` and `docs_written = w` are
both numbers with `r + w > 0`, `calculateProgress` returns
`min(round(w / (r + w) * 100), 99)`; when either counter is absent (or the
report itself is), it returns the fixed fallback 50; and it never returns
100 — in the WebDAV machine a stored progress of 100 can only appear
through a completion step (`complete` handler or the completed auto-sync
pass), never through the `change` handler that stores
`calculateProgress`. -/
theorem C1_progress_estimator (r w : ℚ) (h : 0 < r + w) :
    calculateProgress (some { docs_read := some r, docs_written := some w })
        = .val (min (jsRound (w / (r + w) * 100)) 99)
    ∧ (∀ i : ChangeInfo, i.docs_read = none ∨ i.docs_written = none →
        calculateProgress (some i) = .val 50)
    ∧ calculateProgress none = .val 50
    ∧ (∀ info, calculateProgress info ≠ .val 100)
    ∧ (∀ s info, (wdOnChange s info).1.syncStatus.progress
          ≠ some (.val 100))
    ∧ (∀ s op, (wdStep s op).1.syncStatus.progress = some (.val 100) →
        s.syncStatus.progress = some (.val 100)
          ∨ op = .complete ∨ op = .autoTick .ok) := by
  refine ⟨?_, ?_, rfl, calculateProgress_ne_hundred, ?_, ?_⟩
  · simp [calculateProgress, h.ne']
  · intro i hi
    rcases i with ⟨dr, dw⟩
    rcases hi with hi | hi
    · subst hi
      cases dw <;> rfl
    · subst hi
      cases dr <;> rfl
  · intro s info
    simp only [wdOnChange, wdUpdateStatus, spreadStatus]
    exact fun hc => calculateProgress_ne_hundred info (Option.some.inj hc)
  · exact wdStep_progress_hundred

/-- Witness for C1 at the concrete report `r = 100, w = 50`. -/
theorem C1_progress_estimator_witness :
    calculateProgress
        (some { docs_read := some 100, docs_written := some 50 })
      = .val (min (jsRound ((50 : ℚ) / (100 + 50) * 100)) 99) :=
  (C1_progress_estimator 100 50 (by norm_num)).1

/-- C2 counterexample: on a fresh `WebDAVAdapter` (no `connect` yet),
`startSync` does fail — but it records an `error` status instead of leaving
the status unchanged; and after a `connect` that returned `false` (invalid
scheme, config already stored), `startSync` does not fail at all. -/
theorem C2_counterexample :
    (wdStartSync wdInit).2 = .error wdPreErr
    ∧ (wdStartSync wdInit).1.1.syncStatus ≠ wdInit.syncStatus
    ∧ (wdConnect wdInit { url := "ftp://x" }).2 = false
    ∧ (wdStartSync (wdConnect wdInit { url := "ftp://x" }).1.1).2
        = .ok () :=
  ⟨rfl, by decide, by decide, rfl⟩

/-- C2 amended: `startSync` on an adapter that has never seen a `connect`
call fails with the precondition error, but the failure path records
status `error` (progress untouched) rather than leaving the status
unchanged; and because `connect` stores the config before any step that
can fail, after any `connect` call — including one that returned `false` —
`startSync` no longer fails with the precondition error. -/
theorem C2_startSync_precondition (s : WebDAVState) :
    (s.config = none →
      (wdStartSync s).2 = .error wdPreErr
      ∧ (wdStartSync s).1.1.syncStatus.status = .error
      ∧ (wdStartSync s).1.1.syncStatus.error = some wdPreErr
      ∧ (wdStartSync s).1.1.syncStatus.progress = s.syncStatus.progress)
    ∧ (∀ c : WebDAVConfigM,
        ((wdConnect s c).1.1).config = some c
        ∧ (wdStartSync ((wdConnect s c).1.1)).2 = .ok ()) := by
  constructor
  · intro h
    refine ⟨?_, ?_, ?_, ?_⟩ <;>
      simp [wdStartSync, h, wdUpdateStatus, spreadStatus]
  · intro c
    have hc : ((wdConnect s c).1.1).config = some c := by
      unfold wdConnect
      split <;> rfl
    exact ⟨hc, by simp [wdStartSync, hc]⟩

/-- Witness for C2 amended on a fresh adapter. -/
theorem C2_startSync_precondition_witness :
    (wdStartSync wdInit).2 = .error wdPreErr
    ∧ (wdStartSync wdInit).1.1.syncStatus.status = .error
    ∧ (wdStartSync wdInit).1.1.syncStatus.error = some wdPreErr
    ∧ (wdStartSync wdInit).1.1.syncStatus.progress
        = wdInit.syncStatus.progress :=
  (C2_startSync_precondition wdInit).1 rfl

/-- C3 counterexample: the operation sequence `[stopSync]` on a fresh
WebDAV adapter ends with status `idle` while `progress` is defined
(`stopSync` writes `progress: 0`), so the claimed invariant — progress
defined only while status is `syncing` or `completed` — is violated. -/
theorem C3_counterexample :
    (wdRun [WDOp.stopSync]).syncStatus.status = .idle
    ∧ (wdRun [WDOp.stopSync]).syncStatus.progress = some (.val 0) := by
  decide

/-- C3 amended: the stated invariant does not hold — `progress` may be
defined in any status and `error` persists after leaving the `error`
status, because updates never clear fields they do not name.  What every
reachable state does satisfy is the converse half: whenever the status is
`error`, the `error` field is populated. -/
theorem C3_status_error_invariant (ops : List WDOp) :
    statusErrorInv (wdRun ops) :=
  wdRun_inv_aux ops wdInit (fun h => absurd h (by decide))

/-- Witness for C3 amended: after a failed connect the status is `error`
and the error field is indeed populated. -/
theorem C3_status_error_invariant_witness :
    (wdRun [WDOp.connect { url := "ftp://x" }]).syncStatus.error ≠ none :=
  C3_status_error_invariant [WDOp.connect { url := "ftp://x" }] (by decide)

/-- C4: in a reconciliation pass, a remote document and the local document
found under the same identifier whose revision markers are both present
(nonempty, hence not JS-falsy) and equal produce no write on either side:
the remote document is not put into the local store and the local row is
not pushed to the remote store. -/
theorem C4_equal_markers_no_writes
    (remoteDocs : List RemoteDoc) (rows : List LocalRow)
    (rd : RemoteDoc) (row : LocalRow) (d : LocalDoc) (v : String)
    (hfl : rows.find? (fun r => r.id == rd.id) = some row)
    (hdoc : row.doc = some d)
    (hlrev : d.rev = some v) (hrrev : rd.rev = some v) (hv : v ≠ "")
    (hfr : remoteDocs.find? (fun x => x.id == row.id) = some rd) :
    rd ∉ syncRemoteToLocal remoteDocs rows
    ∧ row ∉ syncLocalToRemote remoteDocs rows := by
  have hrw : remoteWinsPut rows rd = false := by
    simp only [remoteWinsPut, hfl, hdoc, hlrev, hrrev]
    simp [revFalsy, revGt, hv, lt_irrefl]
  have hlw : localWinsPut remoteDocs row = false := by
    simp only [localWinsPut, hdoc, hlrev, hrrev, hfr]
    simp [revFalsy, revGt, hv, lt_irrefl]
  constructor
  · intro hmem
    rw [syncRemoteToLocal, List.mem_filter, hrw] at hmem
    exact absurd hmem.2 (by simp)
  · intro hmem
    rw [syncLocalToRemote, List.mem_filter, hlw] at hmem
    exact absurd hmem.2 (by simp)

/-- Witness for C4 on singleton stores with equal markers `"1"`. -/
theorem C4_equal_markers_no_writes_witness :
    ({ id := "a", rev := some "1", content := "rc" } : RemoteDoc)
        ∉ syncRemoteToLocal
            [{ id := "a", rev := some "1", content := "rc" }]
            [{ id := "a", doc := some { rev := some "1", content := "lc" } }]
    ∧ ({ id := "a", doc := some { rev := some "1", content := "lc" } } :
          LocalRow)
        ∉ syncLocalToRemote
            [{ id := "a", rev := some "1", content := "rc" }]
            [{ id := "a",
               doc := some { rev := some "1", content := "lc" } }] :=
  C4_equal_markers_no_writes _ _ _ _ _ "1" rfl rfl rfl rfl
    (by decide) rfl

/-- C5: in a reconciliation pass where the remote document carries marker
`"2"` and the local document found under the same identifier carries marker
`"1"` (remote lexicographically greater), the remote document — content
included — is put into the local store, and the local row is not pushed to
the remote store. -/
theorem C5_remote_wins
    (remoteDocs : List RemoteDoc) (rows : List LocalRow)
    (rd : RemoteDoc) (row : LocalRow) (d : LocalDoc)
    (hmem : rd ∈ remoteDocs)
    (hfl : rows.find? (fun r => r.id == rd.id) = some row)
    (hdoc : row.doc = some d)
    (hlrev : d.rev = some "1") (hrrev : rd.rev = some "2")
    (hfr : remoteDocs.find? (fun x => x.id == row.id) = some rd) :
    rd ∈ syncRemoteToLocal remoteDocs rows
    ∧ row ∉ syncLocalToRemote remoteDocs rows := by
  have hrw : remoteWinsPut rows rd = true := by
    simp only [remoteWinsPut, hfl, hdoc, hlrev, hrrev]
    simp [revGt, revFalsy]
    decide
  have hlw : localWinsPut remoteDocs row = false := by
    simp only [localWinsPut, hdoc, hlrev, hrrev, hfr]
    simp [revFalsy, revGt]
    decide
  constructor
  · exact List.mem_filter.mpr ⟨hmem, hrw⟩
  · intro hmemL
    rw [syncLocalToRemote, List.mem_filter, hlw] at hmemL
    exact absurd hmemL.2 (by simp)

/-- Witness for C5 on singleton stores with markers `"2"` (remote) and
`"1"` (local). -/
theorem C5_remote_wins_witness :
    ({ id := "a", rev := some "2", content := "rc" } : RemoteDoc)
        ∈ syncRemoteToLocal
            [{ id := "a", rev := some "2", content := "rc" }]
            [{ id := "a", doc := some { rev := some "1", content := "lc" } }]
    ∧ ({ id := "a", doc := some { rev := some "1", content := "lc" } } :
          LocalRow)
        ∉ syncLocalToRemote
            [{ id := "a", rev := some "2", content := "rc" }]
            [{ id := "a",
               doc := some { rev := some "1", content := "lc" } }] :=
  C5_remote_wins _ _ _ _ _ (List.mem_singleton.mpr rfl) rfl rfl rfl rfl rfl

/-- C6 counterexample: a fresh adapter is already idle after one
`stopSync`, yet a second `stopSync` dispatches `sync-stopped` again — the
event is not limited to actual running-to-idle transitions. -/
theorem C6_counterexample :
    (wdStopSync wdInit).1.syncStatus.status = .idle
    ∧ (wdStopSync (wdStopSync wdInit).1).2 = ["sync-stopped"] := by
  decide

/-- C6 amended: `stopSync` is idempotent on the adapter state — every call
leaves status `idle` and a second call changes nothing — but it dispatches
`sync-stopped` unconditionally on every call, including when the adapter is
already idle (WebDAV and RemoteStorage variants alike). -/
theorem C6_stopSync_idempotent_redispatch (s : WebDAVState) (t : RSState) :
    (wdStopSync s).1.syncStatus.status = .idle
    ∧ wdStopSync ((wdStopSync s).1) = ((wdStopSync s).1, ["sync-stopped"])
    ∧ (wdStopSync s).2 = ["sync-stopped"]
    ∧ (rsStopSync t).1.status.status = .idle
    ∧ rsStopSync ((rsStopSync t).1) = ((rsStopSync t).1, ["sync-stopped"])
    ∧ (rsStopSync t).2 = ["sync-stopped"] :=
  ⟨rfl, rfl, rfl, rfl, rfl, rfl⟩

/-- C7 counterexample: a RemoteStorage adapter that connected and completed
one sync pass holds progress 100; `stopSync` then leaves status `idle` with
the stale progress 100 still present — progress is not cleared. -/
theorem C7_counterexample :
    rsSynced.status.progress = some (.val 100)
    ∧ (rsStopSync rsSynced).1.status.status = .idle
    ∧ (rsStopSync rsSynced).1.status.progress = some (.val 100) := by
  decide

/-- C7 amended: `stopSync` always cancels the auto-sync timer and (for the
WebDAV variant) the replication handle and the remote handle, and always
leaves status `idle`; the WebDAV variant resets progress to 0, while the
RemoteStorage / GoogleDrive variant names no progress key in its update and
therefore retains whatever progress value was there before. -/
theorem C7_stopSync_cleanup (s : WebDAVState) (t : RSState) :
    (wdStopSync s).1.autoSyncTimer = false
    ∧ (wdStopSync s).1.syncHandler = false
    ∧ (wdStopSync s).1.remoteDB = false
    ∧ (wdStopSync s).1.syncStatus.status = .idle
    ∧ (wdStopSync s).1.syncStatus.progress = some (.val 0)
    ∧ (rsStopSync t).1.autoSyncTimer = false
    ∧ (rsStopSync t).1.status.status = .idle
    ∧ (rsStopSync t).1.status.progress = t.status.progress :=
  ⟨rfl, rfl, rfl, rfl, rfl, rfl, rfl, rfl⟩

/-- C8: dispatching an event over any listener list containing a throwing
listener completes normally: the final caller-visible state shows every
listener before and after the throwing one ran (the fold of the whole
list), the caught error appears in the log, and no exception escapes to
the dispatching caller — `dispatchEvent` returns a plain value. -/
theorem C8_listener_isolation {σ : Type} (ed : SyncEventData)
    (pre post : List (Listener σ)) (t : Listener σ) (s : σ) (e : String)
    (ht : (t ed (runAll ed pre s)).2 = some e) :
    (dispatchEvent ed (pre ++ t :: post) s).1
        = runAll ed post (t ed (runAll ed pre s)).1
    ∧ e ∈ (dispatchEvent ed (pre ++ t :: post) s).2 := by
  constructor
  · rw [dispatchEvent_fst]
    simp [runAll, List.foldl_append]
  · rw [dispatchEvent_append]
    simp [dispatchEvent, dispatchEvent_fst]
    exact Or.inr (Or.inl ht)

/-- Witness for C8: one throwing and one well-behaved listener; dispatch
runs the well-behaved one and logs the throw. -/
theorem C8_listener_isolation_witness :
    (dispatchEvent edW ([] ++ badW :: [goodW]) 0).1
        = runAll edW [goodW] (badW edW (runAll edW [] 0)).1
    ∧ "boom" ∈ (dispatchEvent edW ([] ++ badW :: [goodW]) 0).2 :=
  C8_listener_isolation edW [] [goodW] badW 0 "boom" rfl

/-- C9: `updateStatus` merges by object spread, so every field the patch
does not name is retained unchanged — in particular a recorded error
persists through later transitions to `connecting`, `connected` or `idle`
until some update explicitly overwrites it; the base-class variant
performs the same state merge. -/
theorem C9_updateStatus_frame (s : SyncStatus) (p : StatusPatch) :
    (p.status = none → (spreadStatus s p).status = s.status)
    ∧ (p.progress = none → (spreadStatus s p).progress = s.progress)
    ∧ (p.error = none → (spreadStatus s p).error = s.error)
    ∧ (spreadStatus s { status := some .connecting }).error = s.error
    ∧ (spreadStatus s { status := some .connected }).error = s.error
    ∧ (spreadStatus s { status := some .idle }).error = s.error
    ∧ (baseUpdateStatus s p).1 = spreadStatus s p := by
  refine ⟨fun h => ?_, fun h => ?_, fun h => ?_, rfl, rfl, rfl, rfl⟩ <;>
    simp [spreadStatus, h]

/-- Witness for C9: an error recorded in the status survives a transition
to `connecting`, and so does the progress value. -/
theorem C9_updateStatus_frame_witness :
    (spreadStatus
        { status := .error, progress := some (.val 7), error := some ⟨"m"⟩ }
        { status := some .connecting }).progress = some (.val 7) :=
  (C9_updateStatus_frame
      { status := .error, progress := some (.val 7), error := some ⟨"m"⟩ }
      { status := some .connecting }).2.1 rfl

/-- C10: a change report with `docs_read = 0` and `docs_written = 0` takes
the numeric branch, computes `0 / 0`, and `calculateProgress` returns NaN —
not a finite integer (so neither a value in `0..99` nor the fallback
50). -/
theorem C10_zero_report_nan :
    calculateProgress
        (some { docs_read := some 0, docs_written := some 0 }) = .nan
    ∧ (calculateProgress
        (some { docs_read := some 0, docs_written := some 0 })).isInt
        = false := by
  norm_num [calculateProgress, JsNum.isInt]

end UniversalSync
